import Mathlib

/-!
Shallow embedding of the Neuroimaging-Preprocessing repository
(src/code/qc_summary.py and src/code/example_analysis.py).

Conventions of the embedding:
* Python floats are modelled as rationals (ℚ); the NaN missing-value
  sentinel produced by `data.get(key, np.nan)` is modelled as `none` in
  `Option ℚ`.  Pandas comparisons with NaN are always false, which the
  helpers `optGT`, `optLT`, `optLE` reproduce (`none` never satisfies a
  threshold comparison).
* A MRIQC JSON metric file is modelled as an association list of numeric
  top-level keys together with an optional nested `bids_meta` association
  list of string identifiers.
* File discovery (`Path.glob`) is external to the program; the list of
  discovered files, in enumeration order, is a parameter of the embedded
  loaders.
-/

namespace QCSummary

/-- Pandas semantics of `df[col] > t` on a possibly-NaN cell:
NaN compares false. -/
def optGT (v : Option ℚ) (t : ℚ) : Bool :=
  match v with
  | none => false
  | some x => decide (t < x)

/-- Pandas semantics of `df[col] < t` on a possibly-NaN cell. -/
def optLT (v : Option ℚ) (t : ℚ) : Bool :=
  match v with
  | none => false
  | some x => decide (x < t)

/-- Pandas semantics of `df[col] <= t` on a possibly-NaN cell. -/
def optLE (v : Option ℚ) (t : ℚ) : Bool :=
  match v with
  | none => false
  | some x => decide (x ≤ t)

/-- Left-pad a string with zeros up to width `d`. -/
def padZeros (d : Nat) (s : String) : String :=
  String.mk (List.replicate (d - s.length) '0') ++ s

/-- Rational model of Python fixed-point formatting `f"{q:.d f}"`:
the magnitude is scaled by `10^d`, rounded to the nearest integer
(ties upward on the magnitude), and printed with `d` fractional digits. -/
def fmtFixed (d : Nat) (q : ℚ) : String :=
  let n : Nat := (Int.floor (|q| * (10 ^ d : ℚ) + 1/2)).toNat
  let ip : Nat := n / 10 ^ d
  let fp : Nat := n % 10 ^ d
  (if q < 0 then "-" else "") ++ toString ip ++ "." ++ padZeros d (toString fp)

/-- One row of the BOLD (functional) QC table built by `load_bold_metrics`. -/
structure BoldRecord where
  subject_id : String
  session_id : String
  task : String
  fd_mean : Option ℚ
  fd_num : Option ℚ
  fd_perc : Option ℚ
  snr : Option ℚ
  tsnr : Option ℚ
  gcor : Option ℚ
  dvars_std : Option ℚ
  dvars_nstd : Option ℚ
  aor : Option ℚ
  aqi : Option ℚ
deriving DecidableEq

/-- One row of the T1w (anatomical) QC table built by `load_t1w_metrics`. -/
structure T1wRecord where
  subject_id : String
  session_id : String
  snr : Option ℚ
  cnr : Option ℚ
  fber : Option ℚ
  efc : Option ℚ
  qi_1 : Option ℚ
  qi_2 : Option ℚ
  cjv : Option ℚ
  wm2max : Option ℚ
deriving DecidableEq

/-- One suggested-exclusion row appended by `create_exclusion_list`. -/
structure ExclusionEntry where
  subject_id : String
  session_id : String
  reason : String
  severity : String
deriving DecidableEq

/-- Entry emitted by the `fd_mean > 0.9` rule (qc_summary.py lines 164-171). -/
def highMotionEntry (r : BoldRecord) (x : ℚ) : ExclusionEntry :=
  { subject_id := r.subject_id
    session_id := r.session_id
    reason := "High motion (FD=" ++ fmtFixed 3 x ++ "mm)"
    severity := "high" }

/-- Entry emitted by the `0.5 < fd_mean <= 0.9` rule (lines 174-181). -/
def modMotionEntry (r : BoldRecord) (x : ℚ) : ExclusionEntry :=
  { subject_id := r.subject_id
    session_id := r.session_id
    reason := "Moderate motion (FD=" ++ fmtFixed 3 x ++ "mm)"
    severity := "moderate" }

/-- Entry emitted by the `tsnr < 40` rule (lines 184-191). -/
def lowTsnrEntry (r : BoldRecord) (x : ℚ) : ExclusionEntry :=
  { subject_id := r.subject_id
    session_id := r.session_id
    reason := "Low tSNR (" ++ fmtFixed 2 x ++ ")"
    severity := "moderate" }

/-- Entry emitted by the anatomical `snr < 8` rule (lines 195-202). -/
def lowSnrEntry (r : T1wRecord) (x : ℚ) : ExclusionEntry :=
  { subject_id := r.subject_id
    session_id := r.session_id
    reason := "Very low SNR (" ++ fmtFixed 2 x ++ ")"
    severity := "high" }

/-- First pass of `create_exclusion_list`: `bold_df[bold_df.fd_mean > 0.9]`
(qc_summary.py lines 164-171). -/
def highMotionPass (rows : List BoldRecord) : List ExclusionEntry :=
  rows.filterMap fun r =>
    match r.fd_mean with
    | some x => if (9 : ℚ)/10 < x then some (highMotionEntry r x) else none
    | none => none

/-- Second pass: `bold_df[(fd_mean > 0.5) & (fd_mean <= 0.9)]`
(lines 174-181). -/
def modMotionPass (rows : List BoldRecord) : List ExclusionEntry :=
  rows.filterMap fun r =>
    match r.fd_mean with
    | some x =>
        if (1 : ℚ)/2 < x ∧ x ≤ (9 : ℚ)/10 then some (modMotionEntry r x) else none
    | none => none

/-- Third pass: `bold_df[bold_df.tsnr < 40]` (lines 184-191). -/
def lowTsnrPass (rows : List BoldRecord) : List ExclusionEntry :=
  rows.filterMap fun r =>
    match r.tsnr with
    | some x => if x < (40 : ℚ) then some (lowTsnrEntry r x) else none
    | none => none

/-- The three functional passes of `create_exclusion_list`, in source
order: high motion, moderate motion, low tSNR (each pass scans the whole
table before the next starts, as the Python loops do). -/
def boldExclusions (rows : List BoldRecord) : List ExclusionEntry :=
  highMotionPass rows ++ modMotionPass rows ++ lowTsnrPass rows

/-- The anatomical pass of `create_exclusion_list` (snr < 8). -/
def t1wExclusions (rows : List T1wRecord) : List ExclusionEntry :=
  rows.filterMap fun r =>
    match r.snr with
    | some x => if x < (8 : ℚ) then some (lowSnrEntry r x) else none
    | none => none

/-- `MRIQCAnalyzer.create_exclusion_list` (qc_summary.py lines 158-218):
functional rules first (when a BOLD table exists), then the anatomical
rule (when a T1w table exists). -/
def create_exclusion_list (bold_df : Option (List BoldRecord))
    (t1w_df : Option (List T1wRecord)) : List ExclusionEntry :=
  (match bold_df with
   | none => []
   | some rows => boldExclusions rows)
  ++ (match t1w_df with
      | none => []
      | some rows => t1wExclusions rows)

/-- `generate_bold_summary` high-motion flag subset: `df[df.fd_mean > 0.5]`. -/
def high_motion_flags (df : List BoldRecord) : List BoldRecord :=
  df.filter fun r => optGT r.fd_mean ((1 : ℚ)/2)

/-- `generate_bold_summary` low-tSNR flag subset: `df[df.tsnr < 50]`. -/
def low_tsnr_flags (df : List BoldRecord) : List BoldRecord :=
  df.filter fun r => optLT r.tsnr (50 : ℚ)

/-- `generate_t1w_summary` low-SNR flag subset: `df[df.snr < 10]`. -/
def low_snr_flags (df : List T1wRecord) : List T1wRecord :=
  df.filter fun r => optLT r.snr (10 : ℚ)

/-- `generate_t1w_summary` high-EFC flag subset: `df[df.efc > 0.5]`. -/
def high_efc_flags (df : List T1wRecord) : List T1wRecord :=
  df.filter fun r => optGT r.efc ((1 : ℚ)/2)

/-- One MRIQC JSON metric file: numeric top-level keys plus the optional
nested `bids_meta` object of string identifiers. -/
structure QCJson where
  nums : List (String × ℚ)
  bids_meta : Option (List (String × String))
deriving DecidableEq

/-- Python `data.get(key, np.nan)` for a numeric top-level key:
`none` is the NaN sentinel. -/
def getNum (j : QCJson) (key : String) : Option ℚ :=
  j.nums.lookup key

/-- Python `data.get('bids_meta', dict()).get(key, 'unknown')`. -/
def getMeta (j : QCJson) (key : String) : String :=
  match j.bids_meta with
  | none => "unknown"
  | some m => (m.lookup key).getD "unknown"

/-- The record built for one BOLD JSON file (qc_summary.py lines 45-59). -/
def load_bold_record (j : QCJson) : BoldRecord :=
  { subject_id := getMeta j "subject_id"
    session_id := getMeta j "session_id"
    task := getMeta j "task_id"
    fd_mean := getNum j "fd_mean"
    fd_num := getNum j "fd_num"
    fd_perc := getNum j "fd_perc"
    snr := getNum j "snr"
    tsnr := getNum j "tsnr"
    gcor := getNum j "gcor"
    dvars_std := getNum j "dvars_std"
    dvars_nstd := getNum j "dvars_nstd"
    aor := getNum j "aor"
    aqi := getNum j "aqi" }

/-- The record built for one T1w JSON file (qc_summary.py lines 76-87).
Note the `snr` field is sourced from the top-level key `snr_total`. -/
def load_t1w_record (j : QCJson) : T1wRecord :=
  { subject_id := getMeta j "subject_id"
    session_id := getMeta j "session_id"
    snr := getNum j "snr_total"
    cnr := getNum j "cnr"
    fber := getNum j "fber"
    efc := getNum j "efc"
    qi_1 := getNum j "qi_1"
    qi_2 := getNum j "qi_2"
    cjv := getNum j "cjv"
    wm2max := getNum j "wm2max" }

/-- `MRIQCAnalyzer.load_bold_metrics` (lines 32-62), with the glob result
(in enumeration order) supplied as `files`: `None` when no files are
found, otherwise one record per file. -/
def load_bold_metrics (files : List QCJson) : Option (List BoldRecord) :=
  match files with
  | [] => none
  | _ => some (files.map load_bold_record)

/-- `MRIQCAnalyzer.load_t1w_metrics` (lines 64-90). -/
def load_t1w_metrics (files : List QCJson) : Option (List T1wRecord) :=
  match files with
  | [] => none
  | _ => some (files.map load_t1w_record)

end QCSummary

namespace ExampleAnalysis

/-!
Embedding of src/code/example_analysis.py.  The numerical internals
(nibabel/nilearn) are external collaborators; they appear as oracle
parameters.  A confound table is an association list from column name to
the column's cells (cells are `Option ℚ`, `none` being NaN).
-/

/-- `PostPreprocessingAnalysis.__init__` selection of the BOLD file
(example_analysis.py lines 53-57): `FileNotFoundError` when the glob
yields nothing, otherwise `bold_files[0]` — the first path in the
enumeration order the glob returned, with no sorting applied. -/
def select_bold_file (bold_files : List String) : Except String String :=
  match bold_files with
  | [] => Except.error "No preprocessed BOLD files found"
  | f :: _ => Except.ok f

/-- `__init__` selection of the confounds file (lines 60-64). -/
def select_confounds_file (confounds_files : List String) : Except String String :=
  match confounds_files with
  | [] => Except.error "No confounds file found"
  | f :: _ => Except.ok f

/-- `__init__` selection of the optional mask (line 67-68):
`mask_files[0] if mask_files else None`. -/
def select_mask_file (mask_files : List String) : Option String :=
  match mask_files with
  | [] => none
  | f :: _ => some f

/-- The default 10-name confound set (lines 90-96). -/
def default_confounds : List String :=
  ["trans_x", "trans_y", "trans_z",
   "rot_x", "rot_y", "rot_z",
   "framewise_displacement",
   "csf", "white_matter",
   "global_signal"]

/-- A confound table: columns in header order, each column a name paired
with its cells (one per time point); `none` cells are NaN. -/
abbrev ConfoundTable : Type := List (String × List (Option ℚ))

/-- The table's header (column-name list). -/
def header (t : ConfoundTable) : List String :=
  t.map Prod.fst

/-- `confounds_df[c]`: the (first) column named `c`. -/
def column (t : ConfoundTable) (c : String) : List (Option ℚ) :=
  (t.lookup c).getD []

/-- `PostPreprocessingAnalysis.load_confounds` (lines 83-114): select the
requested names present in the header, in requested order; `None` when
none are present; `fillna(0)` on the selected columns. -/
def load_confounds (t : ConfoundTable) (confound_names : Option (List String)) :
    Option (List (String × List ℚ)) :=
  let names := confound_names.getD default_confounds
  let available := names.filter fun c => (header t).contains c
  match available with
  | [] => none
  | _ => some (available.map fun c => (c, (column t c).map fun v => v.getD 0))

/-- The four artifacts written by `save_results`, in source order
(lines 194-227). -/
inductive Artifact where
  | timeseriesNpy
  | connectivityNpy
  | labelsTxt
  | connectivityCsv
deriving DecidableEq

/-- The order in which `save_results` performs its writes. -/
def saveOrder : List Artifact :=
  [Artifact.timeseriesNpy, Artifact.connectivityNpy,
   Artifact.labelsTxt, Artifact.connectivityCsv]

/-- Outcome of a run of sequential writes under a fault model:
which writes were attempted, which completed (remain on disk), and
whether the whole sequence finished without raising. -/
structure SaveOutcome where
  attempted : List Artifact
  written : List Artifact
  completed : Bool
deriving DecidableEq

/-- Straight-line sequential writes with no per-write error handling:
a write that raises aborts everything after it (the exception propagates
out of `save_results`).  `fails a = true` means the write of artifact `a`
raises. -/
def writeSeq (arts : List Artifact) (fails : Artifact → Bool) : SaveOutcome :=
  match arts with
  | [] => { attempted := [], written := [], completed := true }
  | a :: rest =>
    if fails a then { attempted := [a], written := [], completed := false }
    else
      let o := writeSeq rest fails
      { attempted := a :: o.attempted, written := a :: o.written,
        completed := o.completed }

/-- `PostPreprocessingAnalysis.save_results` (lines 194-227) under the
fault model `fails`: the four writes run in source order as straight-line
code, with no try/except around any individual write. -/
def save_results (fails : Artifact → Bool) : SaveOutcome :=
  writeSeq saveOrder fails

/-- Region-reduced time series with region labels, as returned by the
delegated nilearn masker. -/
abbrev RoiResult : Type := List (List ℚ) × List String

/-- `PostPreprocessingAnalysis.extract_roi_timeseries` (lines 142-180):
for the two supported atlas selectors the delegated fetch/reduction
outcome `ext` is returned (`none` models an exception caught by the
`except` clause); any other selector prints a warning and returns
`(None, None)` before any external call. -/
def extract_roi_timeseries (atlas : String) (ext : Option RoiResult) :
    Option RoiResult :=
  if atlas = "aal" ∨ atlas = "harvard_oxford" then ext else none

/-- The tail of `PostPreprocessingAnalysis.run_complete_analysis`
(lines 244-266): when ROI extraction returns the null result, neither
connectivity computation nor any artifact write happens; otherwise the
four writes of `save_results` run.  Returns the artifacts on disk. -/
def run_complete_analysis (atlas : String) (ext : Option RoiResult)
    (fails : Artifact → Bool) : List Artifact :=
  match extract_roi_timeseries atlas ext with
  | none => []
  | some _ => (save_results fails).written

end ExampleAnalysis

namespace QCSummary

/-- `List.lookup` misses every key that is not in the association list. -/
theorem lookup_eq_none_of_not_mem {β : Type} (k : String) :
    ∀ l : List (String × β), k ∉ l.map Prod.fst → l.lookup k = none := by
  intro l
  induction l with
  | nil => intro _; rfl
  | cons a l ih =>
    intro h
    simp only [List.map_cons, List.mem_cons, not_or] at h
    have hne : (k == a.1) = false := beq_eq_false_iff_ne.mpr h.1
    obtain ⟨k1, b⟩ := a
    simp only [List.lookup]
    simp only at hne
    rw [hne]
    exact ih h.2

/-- Evaluation rule for `fmtFixed` on a non-negative argument whose
scaled rounding is known. -/
theorem fmtFixed_nonneg_eval (d : Nat) (q : ℚ) (n : Nat) (h0 : 0 ≤ q)
    (h : Int.floor (q * (10 ^ d : ℚ) + 1/2) = (n : ℤ)) :
    fmtFixed d q =
      toString (n / 10 ^ d) ++ "." ++ padZeros d (toString (n % 10 ^ d)) := by
  simp only [fmtFixed]
  rw [abs_of_nonneg h0, h, if_neg (not_lt.mpr h0)]
  simp

/-- Python `f"{0.95:.3f}"` is `"0.950"` in the rational model. -/
theorem fmt3_val_095 : fmtFixed 3 ((19 : ℚ)/20) = "0.950" := by
  rw [fmtFixed_nonneg_eval 3 ((19 : ℚ)/20) 950 (by norm_num) (by norm_num)]
  decide

/-- Python `f"{35:.2f}"` is `"35.00"` in the rational model. -/
theorem fmt2_val_35 : fmtFixed 2 (35 : ℚ) = "35.00" := by
  rw [fmtFixed_nonneg_eval 2 (35 : ℚ) 3500 (by norm_num) (by norm_num)]
  decide

/-- The high-motion pass on a single record, rule by rule. -/
theorem highMotionPass_singleton (r : BoldRecord) :
    highMotionPass [r] =
      (match r.fd_mean with
       | some x => if (9 : ℚ)/10 < x then [highMotionEntry r x] else []
       | none => []) := by
  cases h : r.fd_mean with
  | none => simp [highMotionPass, h]
  | some x =>
    by_cases hx : (9 : ℚ)/10 < x
    · simp [highMotionPass, h, hx]
    · simp [highMotionPass, h, hx]

/-- The moderate-motion pass on a single record, rule by rule. -/
theorem modMotionPass_singleton (r : BoldRecord) :
    modMotionPass [r] =
      (match r.fd_mean with
       | some x =>
           if (1 : ℚ)/2 < x ∧ x ≤ (9 : ℚ)/10 then [modMotionEntry r x] else []
       | none => []) := by
  cases h : r.fd_mean with
  | none => simp [modMotionPass, h]
  | some x =>
    by_cases hx : (1 : ℚ)/2 < x ∧ x ≤ (9 : ℚ)/10
    · simp only [modMotionPass, List.filterMap_cons, List.filterMap_nil, h,
        if_pos hx]
    · simp only [modMotionPass, List.filterMap_cons, List.filterMap_nil, h,
        if_neg hx]

/-- The low-tSNR pass on a single record, rule by rule. -/
theorem lowTsnrPass_singleton (r : BoldRecord) :
    lowTsnrPass [r] =
      (match r.tsnr with
       | some x => if x < (40 : ℚ) then [lowTsnrEntry r x] else []
       | none => []) := by
  cases h : r.tsnr with
  | none => simp [lowTsnrPass, h]
  | some x =>
    by_cases hx : x < (40 : ℚ)
    · simp [lowTsnrPass, h, hx]
    · simp [lowTsnrPass, h, hx]

/-- The anatomical snr pass on a single record, rule by rule. -/
theorem t1wExclusions_singleton (t : T1wRecord) :
    t1wExclusions [t] =
      (match t.snr with
       | some x => if x < (8 : ℚ) then [lowSnrEntry t x] else []
       | none => []) := by
  cases h : t.snr with
  | none => simp [t1wExclusions, h]
  | some x =>
    by_cases hx : x < (8 : ℚ)
    · simp [t1wExclusions, h, hx]
    · simp [t1wExclusions, h, hx]

/-- C1: for every functional QC record, `create_exclusion_list` emits one
entry per triggered rule with the specified thresholds and severities:
fd_mean > 0.9 gives severity "high" with the FD value rendered to 3
decimals in the reason; fd_mean in (0.5, 0.9] gives "moderate"; tsnr < 40
gives "moderate"; anatomical snr < 8 gives "high".  A record with
fd_mean=0.95, tsnr=35 yields exactly a "high" motion entry and a
"moderate" tSNR entry; a record with fd_mean=0.3, tsnr=60 yields none. -/
theorem exclusion_rules_per_record :
    (∀ r : BoldRecord, create_exclusion_list (some [r]) none =
      (match r.fd_mean with
       | some x => if (9 : ℚ)/10 < x then [highMotionEntry r x] else []
       | none => [])
      ++ (match r.fd_mean with
       | some x =>
           if (1 : ℚ)/2 < x ∧ x ≤ (9 : ℚ)/10 then [modMotionEntry r x] else []
       | none => [])
      ++ (match r.tsnr with
       | some x => if x < (40 : ℚ) then [lowTsnrEntry r x] else []
       | none => []))
  ∧ (∀ t : T1wRecord, create_exclusion_list none (some [t]) =
      (match t.snr with
       | some x => if x < (8 : ℚ) then [lowSnrEntry t x] else []
       | none => []))
  ∧ (∀ (r : BoldRecord) (x : ℚ),
      (highMotionEntry r x).severity = "high"
      ∧ (highMotionEntry r x).reason = "High motion (FD=" ++ fmtFixed 3 x ++ "mm)"
      ∧ (modMotionEntry r x).severity = "moderate"
      ∧ (lowTsnrEntry r x).severity = "moderate")
  ∧ (∀ (t : T1wRecord) (x : ℚ), (lowSnrEntry t x).severity = "high")
  ∧ create_exclusion_list
      (some [{ subject_id := "sub-01", session_id := "ses-01", task := "rest",
               fd_mean := some ((19 : ℚ)/20), fd_num := none, fd_perc := none,
               snr := none, tsnr := some (35 : ℚ), gcor := none,
               dvars_std := none, dvars_nstd := none, aor := none,
               aqi := none }]) none =
      [{ subject_id := "sub-01", session_id := "ses-01",
         reason := "High motion (FD=0.950mm)", severity := "high" },
       { subject_id := "sub-01", session_id := "ses-01",
         reason := "Low tSNR (35.00)", severity := "moderate" }]
  ∧ create_exclusion_list
      (some [{ subject_id := "sub-02", session_id := "ses-01", task := "rest",
               fd_mean := some ((3 : ℚ)/10), fd_num := none, fd_perc := none,
               snr := none, tsnr := some (60 : ℚ), gcor := none,
               dvars_std := none, dvars_nstd := none, aor := none,
               aqi := none }]) none = [] := by
  refine ⟨?_, ?_, ?_, ?_, ?_, ?_⟩
  · intro r
    simp [create_exclusion_list, boldExclusions, highMotionPass_singleton,
      modMotionPass_singleton, lowTsnrPass_singleton]
  · intro t
    simp [create_exclusion_list, t1wExclusions_singleton]
  · intro r x
    exact ⟨rfl, rfl, rfl, rfl⟩
  · intro t x
    exact rfl
  · simp only [create_exclusion_list, boldExclusions, highMotionPass_singleton,
      modMotionPass_singleton, lowTsnrPass_singleton]
    norm_num [highMotionEntry, lowTsnrEntry, fmt3_val_095, fmt2_val_35]
    exact ⟨rfl, rfl⟩
  · simp only [create_exclusion_list, boldExclusions, highMotionPass_singleton,
      modMotionPass_singleton, lowTsnrPass_singleton]
    norm_num

/-- C5: the two motion bands cannot both trigger on the same fd_mean
value, so a single record never yields both a high-motion and a
moderate-motion exclusion entry. -/
theorem motion_rules_disjoint :
    (∀ v : Option ℚ,
      (optGT v ((9 : ℚ)/10) && (optGT v ((1 : ℚ)/2) && optLE v ((9 : ℚ)/10)))
        = false)
  ∧ (∀ r : BoldRecord, highMotionPass [r] = [] ∨ modMotionPass [r] = []) := by
  constructor
  · intro v
    cases v with
    | none => simp [optGT]
    | some x =>
      simp only [optGT, optLE]
      rcases lt_or_le ((9 : ℚ)/10) x with h | h
      · simp [not_le.mpr h]
      · simp [not_lt.mpr h]
  · intro r
    cases h : r.fd_mean with
    | none => left; simp [highMotionPass_singleton, h]
    | some x =>
      by_cases hx : (9 : ℚ)/10 < x
      · right
        have hm : ¬((1 : ℚ)/2 < x ∧ x ≤ (9 : ℚ)/10) := by
          rintro ⟨-, h2⟩
          exact absurd hx (not_lt.mpr h2)
        simp only [modMotionPass_singleton, h]
        rw [if_neg hm]
      · left
        simp only [highMotionPass_singleton, h]
        rw [if_neg hx]

/-- C9: a NaN metric value triggers no threshold rule: NaN fd_mean yields
neither motion entry nor the high-motion flag, NaN tsnr yields no
low-tSNR entry or flag, and NaN anatomical snr / efc yield no low-SNR or
high-EFC entry or flag. -/
theorem nan_metrics_trigger_nothing :
    (∀ r : BoldRecord,
      highMotionPass [{ r with fd_mean := none }] = []
      ∧ modMotionPass [{ r with fd_mean := none }] = []
      ∧ lowTsnrPass [{ r with tsnr := none }] = []
      ∧ high_motion_flags [{ r with fd_mean := none }] = []
      ∧ low_tsnr_flags [{ r with tsnr := none }] = []
      ∧ create_exclusion_list
          (some [{ r with fd_mean := none, tsnr := none }]) none = [])
  ∧ (∀ t : T1wRecord,
      t1wExclusions [{ t with snr := none }] = []
      ∧ low_snr_flags [{ t with snr := none }] = []
      ∧ high_efc_flags [{ t with efc := none }] = []
      ∧ create_exclusion_list none (some [{ t with snr := none }]) = []) := by
  constructor
  · intro r
    refine ⟨?_, ?_, ?_, ?_, ?_, ?_⟩
    · simp [highMotionPass]
    · simp [modMotionPass]
    · simp [lowTsnrPass]
    · simp [high_motion_flags, optGT]
    · simp [low_tsnr_flags, optLT]
    · simp [create_exclusion_list, boldExclusions, highMotionPass,
        modMotionPass, lowTsnrPass]
  · intro t
    refine ⟨?_, ?_, ?_, ?_⟩
    · simp [t1wExclusions]
    · simp [low_snr_flags, optLT]
    · simp [high_efc_flags, optGT]
    · simp [create_exclusion_list, t1wExclusions]

/-- C4 counterexample: a T1w metric file whose top-level object contains
the key "snr" with value 5 (and no "snr_total") loads to a record whose
snr field is the NaN sentinel, not 5 — the claim that the snr field is
supplied by the top-level key "snr" is false on the code. -/
theorem t1w_snr_key_cex :
    getNum { nums := [("snr", (5 : ℚ))], bids_meta := none } "snr" = some 5
    ∧ (load_t1w_record { nums := [("snr", (5 : ℚ))], bids_meta := none }).snr
        = none
    ∧ (load_t1w_record { nums := [("snr", (5 : ℚ))], bids_meta := none }).snr
        ≠ some 5 := by
  refine ⟨rfl, rfl, ?_⟩
  intro h
  exact Option.noConfusion h

/-- C4 amended: the anatomical record's snr field is supplied by the
top-level JSON key "snr_total": a file containing "snr_total" with
numeric value v yields a record whose snr equals v, and in general the
snr field equals the "snr_total" lookup (the key "snr" is not consulted
for it). -/
theorem t1w_snr_from_snr_total :
    (∀ j : QCJson, (load_t1w_record j).snr = getNum j "snr_total")
    ∧ (∀ (v : ℚ) (rest : List (String × ℚ))
        (meta : Option (List (String × String))),
        (load_t1w_record { nums := ("snr_total", v) :: rest,
                           bids_meta := meta }).snr = some v) := by
  constructor
  · intro j
    rfl
  · intro v rest meta
    simp [load_t1w_record, getNum, List.lookup]

/-- C8: the QC metric loaders return the null value when zero files are
discovered; otherwise one record per discovered file; every metric field
whose source key is absent from the file's JSON becomes the NaN sentinel
(`none`), which is distinct from zero. -/
theorem qc_loader_null_and_nan :
    (load_bold_metrics [] = none ∧ load_t1w_metrics [] = none)
    ∧ (∀ (j : QCJson) (js : List QCJson),
        load_bold_metrics (j :: js) = some ((j :: js).map load_bold_record)
        ∧ load_t1w_metrics (j :: js) = some ((j :: js).map load_t1w_record))
    ∧ (∀ meta : Option (List (String × String)),
        (load_bold_record { nums := [], bids_meta := meta }).fd_mean = none
        ∧ (load_bold_record { nums := [], bids_meta := meta }).fd_num = none
        ∧ (load_bold_record { nums := [], bids_meta := meta }).fd_perc = none
        ∧ (load_bold_record { nums := [], bids_meta := meta }).snr = none
        ∧ (load_bold_record { nums := [], bids_meta := meta }).tsnr = none
        ∧ (load_bold_record { nums := [], bids_meta := meta }).gcor = none
        ∧ (load_bold_record { nums := [], bids_meta := meta }).dvars_std = none
        ∧ (load_bold_record { nums := [], bids_meta := meta }).dvars_nstd = none
        ∧ (load_bold_record { nums := [], bids_meta := meta }).aor = none
        ∧ (load_bold_record { nums := [], bids_meta := meta }).aqi = none
        ∧ (load_t1w_record { nums := [], bids_meta := meta }).snr = none
        ∧ (load_t1w_record { nums := [], bids_meta := meta }).cnr = none
        ∧ (load_t1w_record { nums := [], bids_meta := meta }).fber = none
        ∧ (load_t1w_record { nums := [], bids_meta := meta }).efc = none
        ∧ (load_t1w_record { nums := [], bids_meta := meta }).qi_1 = none
        ∧ (load_t1w_record { nums := [], bids_meta := meta }).qi_2 = none
        ∧ (load_t1w_record { nums := [], bids_meta := meta }).cjv = none
        ∧ (load_t1w_record { nums := [], bids_meta := meta }).wm2max = none)
    ∧ (∀ j : QCJson,
        ("fd_mean" ∉ j.nums.map Prod.fst →
          (load_bold_record j).fd_mean = none
          ∧ (load_bold_record j).fd_mean ≠ some 0)
        ∧ ("tsnr" ∉ j.nums.map Prod.fst →
          (load_bold_record j).tsnr = none
          ∧ (load_bold_record j).tsnr ≠ some 0))
    ∧ (∀ j : QCJson,
        ("snr_total" ∉ j.nums.map Prod.fst →
          (load_t1w_record j).snr = none
          ∧ (load_t1w_record j).snr ≠ some 0)
        ∧ ("efc" ∉ j.nums.map Prod.fst →
          (load_t1w_record j).efc = none
          ∧ (load_t1w_record j).efc ≠ some 0)) := by
  refine ⟨⟨rfl, rfl⟩, ?_, ?_, ?_, ?_⟩
  · intro j js
    exact ⟨rfl, rfl⟩
  · intro meta
    refine ⟨rfl, rfl, rfl, rfl, rfl, rfl, rfl, rfl, rfl, rfl, rfl, rfl, rfl,
      rfl, rfl, rfl, rfl, rfl⟩
  · intro j
    constructor
    · intro h
      have hl := lookup_eq_none_of_not_mem "fd_mean" j.nums h
      refine ⟨?_, ?_⟩
      · simp [load_bold_record, getNum, hl]
      · simp [load_bold_record, getNum, hl]
    · intro h
      have hl := lookup_eq_none_of_not_mem "tsnr" j.nums h
      refine ⟨?_, ?_⟩
      · simp [load_bold_record, getNum, hl]
      · simp [load_bold_record, getNum, hl]
  · intro j
    constructor
    · intro h
      have hl := lookup_eq_none_of_not_mem "snr_total" j.nums h
      refine ⟨?_, ?_⟩
      · simp [load_t1w_record, getNum, hl]
      · simp [load_t1w_record, getNum, hl]
    · intro h
      have hl := lookup_eq_none_of_not_mem "efc" j.nums h
      refine ⟨?_, ?_⟩
      · simp [load_t1w_record, getNum, hl]
      · simp [load_t1w_record, getNum, hl]

/-- C8 witness: for a concrete file whose only top-level key is "snr",
the absent-key hypotheses hold and the sentinel conclusions follow. -/
theorem qc_loader_null_and_nan_witness :
    ((load_bold_record { nums := [("snr", (12 : ℚ))], bids_meta := none }).fd_mean
        = none
      ∧ (load_bold_record { nums := [("snr", (12 : ℚ))], bids_meta := none }).fd_mean
        ≠ some 0)
    ∧ ((load_t1w_record { nums := [("snr", (12 : ℚ))], bids_meta := none }).snr
        = none
      ∧ (load_t1w_record { nums := [("snr", (12 : ℚ))], bids_meta := none }).snr
        ≠ some 0) :=
  ⟨(qc_loader_null_and_nan.2.2.2.1
      { nums := [("snr", (12 : ℚ))], bids_meta := none }).1 (by decide),
   (qc_loader_null_and_nan.2.2.2.2
      { nums := [("snr", (12 : ℚ))], bids_meta := none }).1 (by decide)⟩

/-- C10: a metric file lacking the bids_meta object, or lacking
identifier keys inside it, still yields a record, with "unknown"
substituted for each missing identifier. -/
theorem meta_identifier_defaults :
    (∀ nums : List (String × ℚ),
      (load_bold_record { nums := nums, bids_meta := none }).subject_id
          = "unknown"
      ∧ (load_bold_record { nums := nums, bids_meta := none }).session_id
          = "unknown"
      ∧ (load_bold_record { nums := nums, bids_meta := none }).task = "unknown"
      ∧ (load_t1w_record { nums := nums, bids_meta := none }).subject_id
          = "unknown"
      ∧ (load_t1w_record { nums := nums, bids_meta := none }).session_id
          = "unknown")
    ∧ (∀ (j : QCJson) (m : List (String × String)), j.bids_meta = some m →
        ("subject_id" ∉ m.map Prod.fst →
          (load_bold_record j).subject_id = "unknown"
          ∧ (load_t1w_record j).subject_id = "unknown")
        ∧ ("session_id" ∉ m.map Prod.fst →
          (load_bold_record j).session_id = "unknown"
          ∧ (load_t1w_record j).session_id = "unknown")
        ∧ ("task_id" ∉ m.map Prod.fst →
          (load_bold_record j).task = "unknown"))
    ∧ (∀ j : QCJson,
        load_bold_metrics [j] = some [load_bold_record j]
        ∧ load_t1w_metrics [j] = some [load_t1w_record j]) := by
  refine ⟨?_, ?_, ?_⟩
  · intro nums
    exact ⟨rfl, rfl, rfl, rfl, rfl⟩
  · intro j m hm
    refine ⟨?_, ?_, ?_⟩
    · intro h
      have hl := lookup_eq_none_of_not_mem "subject_id" m h
      constructor
      · simp [load_bold_record, getMeta, hm, hl]
      · simp [load_t1w_record, getMeta, hm, hl]
    · intro h
      have hl := lookup_eq_none_of_not_mem "session_id" m h
      constructor
      · simp [load_bold_record, getMeta, hm, hl]
      · simp [load_t1w_record, getMeta, hm, hl]
    · intro h
      have hl := lookup_eq_none_of_not_mem "task_id" m h
      simp [load_bold_record, getMeta, hm, hl]
  · intro j
    exact ⟨rfl, rfl⟩

/-- C10 witness: a concrete file whose bids_meta holds only task_id still
loads with "unknown" subject and session identifiers. -/
theorem meta_identifier_defaults_witness :
    ((load_bold_record
        { nums := [], bids_meta := some [("task_id", "rest")] }).subject_id
          = "unknown"
      ∧ (load_t1w_record
        { nums := [], bids_meta := some [("task_id", "rest")] }).subject_id
          = "unknown")
    ∧ ((load_bold_record
        { nums := [], bids_meta := some [("task_id", "rest")] }).session_id
          = "unknown"
      ∧ (load_t1w_record
        { nums := [], bids_meta := some [("task_id", "rest")] }).session_id
          = "unknown") :=
  ⟨(meta_identifier_defaults.2.1
      { nums := [], bids_meta := some [("task_id", "rest")] }
      [("task_id", "rest")] rfl).1 (by decide),
   (meta_identifier_defaults.2.1
      { nums := [], bids_meta := some [("task_id", "rest")] }
      [("task_id", "rest")] rfl).2.1 (by decide)⟩

end QCSummary

namespace ExampleAnalysis

/-- `writeSeq` stops at the first failing write: exactly the successful
writes before the failure are on disk. -/
theorem writeSeq_written (fails : Artifact → Bool) :
    ∀ l : List Artifact,
      (writeSeq l fails).written = l.takeWhile (fun a => !(fails a)) := by
  intro l
  induction l with
  | nil => rfl
  | cons a l ih =>
    by_cases hf : fails a
    · simp [writeSeq, hf, List.takeWhile_cons]
    · simp only [writeSeq, hf]
      simp [List.takeWhile_cons, hf, ih]

/-- `writeSeq` finishes without raising exactly when every write
succeeds. -/
theorem writeSeq_completed (fails : Artifact → Bool) :
    ∀ l : List Artifact,
      (writeSeq l fails).completed = l.all (fun a => !(fails a)) := by
  intro l
  induction l with
  | nil => rfl
  | cons a l ih =>
    by_cases hf : fails a
    · simp [writeSeq, hf]
    · simp only [writeSeq, hf]
      simp [hf, ih]

/-- At most one attempted write fails (the one that aborts the rest). -/
theorem writeSeq_attempted_len (fails : Artifact → Bool) :
    ∀ l : List Artifact,
      (writeSeq l fails).attempted.length
        ≤ (writeSeq l fails).written.length + 1 := by
  intro l
  induction l with
  | nil => simp [writeSeq]
  | cons a l ih =>
    by_cases hf : fails a
    · simp [writeSeq, hf]
    · simp only [writeSeq, hf]
      simpa using ih

/-- C2 counterexample: when the first write (the time-series .npy)
raises, the remaining three writes are never attempted even though they
would succeed — the writes are not independent. -/
theorem save_results_not_independent_cex :
    (save_results (fun a => decide (a = Artifact.timeseriesNpy))).attempted
        = [Artifact.timeseriesNpy]
    ∧ (save_results (fun a => decide (a = Artifact.timeseriesNpy))).written = []
    ∧ ((fun a => decide (a = Artifact.timeseriesNpy)) Artifact.connectivityNpy
        = false)
    ∧ Artifact.connectivityNpy
        ∉ (save_results (fun a => decide (a = Artifact.timeseriesNpy))).attempted
    ∧ (save_results (fun a => decide (a = Artifact.timeseriesNpy))).completed
        = false := by
  decide

/-- C2 amended: `save_results` performs its four writes in a fixed
sequence with no per-write error handling: a failing write aborts all
later writes (at most the failing write itself is attempted beyond the
successful ones), while the writes completed before the failure remain
on disk.  Concretely, when only the labels write fails, the time-series
and connectivity arrays remain written. -/
theorem save_results_sequential_abort :
    (∀ fails : Artifact → Bool,
      (save_results fails).written = saveOrder.takeWhile (fun a => !(fails a))
      ∧ (save_results fails).completed = saveOrder.all (fun a => !(fails a))
      ∧ (save_results fails).attempted.length
          ≤ (save_results fails).written.length + 1)
    ∧ (save_results (fun a => decide (a = Artifact.labelsTxt))).written
        = [Artifact.timeseriesNpy, Artifact.connectivityNpy] := by
  constructor
  · intro fails
    exact ⟨writeSeq_written fails saveOrder, writeSeq_completed fails saveOrder,
      writeSeq_attempted_len fails saveOrder⟩
  · decide

/-- C3 counterexample: the input locator takes the first path in the
glob's enumeration order, which need not be the lexicographically-first
candidate: with candidates enumerated as [b, a] it selects b although a
is lexicographically smaller and present. -/
theorem locator_not_lexicographic_cex :
    select_bold_file
      ["sub-01_task-rest_run-02_space-MNI_desc-preproc_bold.nii.gz",
       "sub-01_task-rest_run-01_space-MNI_desc-preproc_bold.nii.gz"]
      = Except.ok "sub-01_task-rest_run-02_space-MNI_desc-preproc_bold.nii.gz"
    ∧ ("sub-01_task-rest_run-01_space-MNI_desc-preproc_bold.nii.gz" : String)
        < "sub-01_task-rest_run-02_space-MNI_desc-preproc_bold.nii.gz"
    ∧ "sub-01_task-rest_run-01_space-MNI_desc-preproc_bold.nii.gz"
        ∈ ["sub-01_task-rest_run-02_space-MNI_desc-preproc_bold.nii.gz",
           "sub-01_task-rest_run-01_space-MNI_desc-preproc_bold.nii.gz"]
    ∧ select_bold_file
        ["sub-01_task-rest_run-02_space-MNI_desc-preproc_bold.nii.gz",
         "sub-01_task-rest_run-01_space-MNI_desc-preproc_bold.nii.gz"]
        ≠ Except.ok
            "sub-01_task-rest_run-01_space-MNI_desc-preproc_bold.nii.gz" := by
  refine ⟨rfl, ?_, by decide, ?_⟩
  · rw [String.lt_iff_toList_lt]
    decide
  · intro h
    exact absurd (Except.ok.inj h) (by decide)

/-- C3 amended: with one or more candidates for the functional scan,
confounds table, or brain mask, the locator deterministically selects
the first path in the candidates' enumeration order (no sorting is
applied, so it is not guaranteed lexicographically-first) and proceeds
without raising an ambiguity error. -/
theorem locator_first_candidate :
    (∀ (f : String) (fs : List String),
      select_bold_file (f :: fs) = Except.ok f
      ∧ select_confounds_file (f :: fs) = Except.ok f
      ∧ select_mask_file (f :: fs) = some f)
    ∧ select_mask_file [] = none :=
  ⟨fun _ _ => ⟨rfl, rfl, rfl⟩, rfl⟩

/-- C6: `load_confounds` returns exactly the requested columns present in
the header, in requested order, zero-filled; the selected count never
exceeds the requested count and every selected name occurs in the input
header (the empty intersection yields the null sentinel instead).  With a
table holding only trans_x, rot_z, csf, the default 10-name request
returns exactly those three columns, zero-filled, in that order. -/
theorem load_confounds_selection :
    (∀ (t : ConfoundTable) (req : List String),
      (load_confounds t (some req) = none ↔
        req.filter (fun c => (header t).contains c) = []))
    ∧ (∀ (t : ConfoundTable) (req : List String) (sel : List (String × List ℚ)),
        load_confounds t (some req) = some sel →
          sel.map Prod.fst = req.filter (fun c => (header t).contains c)
          ∧ sel.length ≤ req.length
          ∧ ∀ p ∈ sel, p.1 ∈ header t
              ∧ p.2 = (column t p.1).map (fun v => v.getD 0))
    ∧ (∀ t : ConfoundTable,
        load_confounds t none = load_confounds t (some default_confounds))
    ∧ load_confounds
        [("trans_x", [some 1, none]), ("rot_z", [none, some 2]),
         ("csf", [some 3, some 4])] none
        = some [("trans_x", [(1 : ℚ), 0]), ("rot_z", [0, 2]),
                ("csf", [3, 4])] := by
  refine ⟨?_, ?_, ?_, ?_⟩
  · intro t req
    cases hF : req.filter (fun c => (header t).contains c) with
    | nil =>
      simp only [load_confounds, Option.getD_some, hF]
    | cons a l =>
      simp only [load_confounds, Option.getD_some, hF]
      simp
  · intro t req sel h
    simp only [load_confounds, Option.getD_some] at h
    cases hF : req.filter (fun c => (header t).contains c) with
    | nil =>
      rw [hF] at h
      simp at h
    | cons a l =>
      rw [hF] at h
      simp only [Option.some.injEq] at h
      subst h
      refine ⟨?_, ?_, ?_⟩
      · rw [List.map_map]
        have hcomp :
            (Prod.fst ∘ fun c => (c, (column t c).map (fun v => v.getD 0)))
              = id := rfl
        rw [hcomp, List.map_id]
      · rw [List.length_map, ← hF]
        exact List.length_filter_le _ req
      · intro p hp
        obtain ⟨c, hc, rfl⟩ := List.mem_map.mp hp
        have hc2 : c ∈ req.filter (fun c => (header t).contains c) := by
          rw [hF]
          exact hc
        have hmem : (header t).contains c = true :=
          (List.mem_filter.mp hc2).2
        exact ⟨by simpa using hmem, rfl⟩
  · intro t
    rfl
  · decide

/-- C6 witness: the selection characterization instantiated on the
three-column scenario table with the default request. -/
theorem load_confounds_selection_witness :
    ([("trans_x", [(1 : ℚ), 0]), ("rot_z", [0, 2]), ("csf", [3, 4])].map
        Prod.fst
      = default_confounds.filter (fun c =>
          (header [("trans_x", [some 1, none]), ("rot_z", [none, some 2]),
                   ("csf", [some (3 : ℚ), some 4])]).contains c))
    ∧ ([("trans_x", [(1 : ℚ), 0]), ("rot_z", [0, 2]), ("csf", [3, 4])].length
        ≤ default_confounds.length) :=
  ⟨(load_confounds_selection.2.1
      [("trans_x", [some 1, none]), ("rot_z", [none, some 2]),
       ("csf", [some 3, some 4])]
      default_confounds
      [("trans_x", [(1 : ℚ), 0]), ("rot_z", [0, 2]), ("csf", [3, 4])]
      (by decide)).1,
   (load_confounds_selection.2.1
      [("trans_x", [some 1, none]), ("rot_z", [none, some 2]),
       ("csf", [some 3, some 4])]
      default_confounds
      [("trans_x", [(1 : ℚ), 0]), ("rot_z", [0, 2]), ("csf", [3, 4])]
      (by decide)).2.1⟩

/-- C7: an atlas selector outside the supported set yields the null ROI
result (no exception), and the pipeline then writes no connectivity or
artifact files for that subject. -/
theorem unknown_atlas_null :
    ∀ (atlas : String) (ext : Option RoiResult) (fails : Artifact → Bool),
      atlas ≠ "aal" → atlas ≠ "harvard_oxford" →
      extract_roi_timeseries atlas ext = none
      ∧ run_complete_analysis atlas ext fails = [] := by
  intro atlas ext fails h1 h2
  have hcond : ¬(atlas = "aal" ∨ atlas = "harvard_oxford") := by
    rintro (h | h)
    · exact h1 h
    · exact h2 h
  constructor
  · simp [extract_roi_timeseries, hcond]
  · simp [run_complete_analysis, extract_roi_timeseries, hcond]

/-- C7 witness: requesting atlas="unknown_atlas" (here with a would-be
successful external result and fault-free writes) returns the null ROI
result and leaves no artifact written. -/
theorem unknown_atlas_null_witness :
    extract_roi_timeseries "unknown_atlas" (some ([], [])) = none
    ∧ run_complete_analysis "unknown_atlas" (some ([], []))
        (fun _ => false) = [] :=
  unknown_atlas_null "unknown_atlas" (some ([], [])) (fun _ => false)
    (by decide) (by decide)

end ExampleAnalysis
